import Mathlib

/-!
Verification of the Amalgam8 sidecar DNS server (`sidecar/dns/server.go`).

The development shallowly embeds the query-to-record pipeline of the DNS
server: question-name parsing, catalog dispatch, protocol filtering,
record synthesis and response-code selection.  Go strings are embedded as
Lean `String`s (manipulated through their underlying `List Char` so that
everything reduces in the kernel), Go `net.IP` values as byte lists
(`[]` plays the role of the Go `nil` slice), fallible Go calls as
`Option`/`Except` values, and the process-wide random generator used for
record shuffling as an explicitly passed source of numbers.

The standard-library functions the server calls (`net.SplitHostPort`,
`net.ParseIP`, `strconv.Atoi`, `net/url.Parse`, and miekg/dns
`IsDomainName`/`SplitDomainName`) are modelled from their documented
behaviour; restrictions are noted on each definition.
-/

namespace A8DNS

/-! Section: Character/string helpers (structural, kernel-reducible) -/

/-- Decimal digit test (byte codes 48-57). -/
def isDigitChar (c : Char) : Bool :=
  48 ≤ c.toNat && c.toNat ≤ 57

/-- Value of a decimal digit. -/
def digitVal (c : Char) : Nat := c.toNat - 48

/-- Value of a hexadecimal digit, `none` when `c` is not a hex digit
(byte ranges 48-57, 97-102, 65-70 as in Go's `xtoi` case analysis). -/
def hexVal (c : Char) : Option Nat :=
  let n := c.toNat
  if 48 ≤ n && n ≤ 57 then some (n - 48)
  else if 97 ≤ n && n ≤ 102 then some (n - 97 + 10)
  else if 65 ≤ n && n ≤ 70 then some (n - 65 + 10)
  else none

/-- Does the character list `s` start with prefix `p`? -/
def hasPrefixL : List Char → List Char → Bool
  | _, [] => true
  | [], _ :: _ => false
  | c :: cs, p :: ps => c == p && hasPrefixL cs ps

/-- Go `strings.HasPrefix` on embedded strings. -/
def hasPrefixS (s p : String) : Bool := hasPrefixL s.data p.data

/-- Index of the first occurrence of `c` in `l` (Go `byteIndex`). -/
def firstIdx (c : Char) : List Char → Option Nat
  | [] => none
  | x :: xs =>
    if x = c then some 0
    else match firstIdx c xs with
      | none => none
      | some i => some (i + 1)

/-- Index of the last occurrence of `c` in `l` (Go `last`). -/
def lastIdx (c : Char) (l : List Char) : Option Nat :=
  match l with
  | [] => none
  | x :: xs =>
    match lastIdx c xs with
    | some i => some (i + 1)
    | none => if x = c then some 0 else none

/-- Split a character list at every occurrence of `sep` (no escapes). -/
def splitOnChar (sep : Char) : List Char → List (List Char)
  | [] => [[]]
  | c :: cs =>
    let rest := splitOnChar sep cs
    if c = sep then [] :: rest
    else match rest with
      | [] => [[c]]
      | r :: rs => (c :: r) :: rs

/-- Decimal value of a digit list (most significant first). -/
def decValue : List Char → Nat → Nat
  | [], acc => acc
  | c :: cs, acc => decValue cs (acc * 10 + digitVal c)

/-! Section: Model of Go `strconv.Atoi`

Parses an optional sign followed by decimal digits; fails on the empty
string, on any non-digit character, and when the value overflows a
64-bit signed integer (the error return of Go's `Atoi` becomes `none`). -/

/-- Model of Go `strconv.Atoi`. -/
def Atoi (s : String) : Option Int :=
  match s.data with
  | [] => none
  | cs =>
    let signDigits : Bool × List Char :=
      match cs with
      | '+' :: r => (false, r)
      | '-' :: r => (true, r)
      | r => (false, r)
    let neg := signDigits.1
    let ds := signDigits.2
    if ds.isEmpty || !(ds.all isDigitChar) then none
    else
      let n := decValue ds 0
      if neg then
        if n ≤ 2 ^ 63 then some (-(n : Int)) else none
      else
        if n < 2 ^ 63 then some (n : Int) else none

/-! Section: Model of Go `net.IP`

A `net.IP` is a byte slice of length 4 or 16; the empty list models the
Go `nil` slice. -/

/-- Go `net.IP`: a list of bytes; `[]` models the `nil` slice. -/
abbrev IP := List Nat

/-- The IPv4-in-IPv6 leading bytes `::ffff:0:0/96` (Go `v4InV6Prefix`, renamed). -/
def v4InV6Pfx : IP := [0, 0, 0, 0, 0, 0, 0, 0, 0, 0, 0xff, 0xff]

/-- Go `net.IPv4`: builds the 16-byte IPv4-in-IPv6 form. -/
def IPv4 (a b c d : Nat) : IP := v4InV6Pfx ++ [a, b, c, d]

/-- Go `IP.To4`: the 4-byte form of an IPv4 address, `[]` ("nil") otherwise. -/
def IP.To4 (ip : IP) : IP :=
  if ip.length = 4 then ip
  else if ip.length = 16 && ip.take 12 = v4InV6Pfx then ip.drop 12
  else []

/-- Go `IP.To16`: the 16-byte form of an address, `[]` ("nil") otherwise. -/
def IP.To16 (ip : IP) : IP :=
  if ip.length = 4 then v4InV6Pfx ++ ip
  else if ip.length = 16 then ip
  else []

/-- Model of Go `net.parseIPv4` field parsing (`dtoi` with the 0-255
bound): a nonempty digit run of value at most 255; leading zeros are
accepted as in Go of this era. -/
def v4Field (f : List Char) : Option Nat :=
  if f.isEmpty || !(f.all isDigitChar) then none
  else
    let n := decValue f 0
    if n ≤ 255 then some n else none

/-- Model of Go `net.parseIPv4`: exactly four dot-separated decimal
fields, each between 0 and 255; returns the 16-byte IPv4-in-IPv6 form
as Go's `IPv4` constructor does, or `[]` for the `nil` failure. -/
def parseIPv4 (s : List Char) : IP :=
  match splitOnChar '.' s with
  | [a, b, c, d] =>
    match v4Field a, v4Field b, v4Field c, v4Field d with
    | some va, some vb, some vc, some vd => IPv4 va vb vc vd
    | _, _, _, _ => []
  | _ => []

/-- Model of Go `net.xtoi`: leading hexadecimal digits of `s`, their
value, the number of characters consumed, and an ok flag; fails when no
digit is present or the value reaches the `big` cutoff `0xFFFFFF`. -/
def xtoiAux : List Char → Nat → Nat → Nat × Nat × Bool
  | [], n, i => (n, i, true)
  | c :: rest, n, i =>
    match hexVal c with
    | none => (n, i, true)
    | some v =>
      let n' := n * 16 + v
      if n' ≥ 0xFFFFFF then (0, i, false)
      else xtoiAux rest n' (i + 1)

/-- Wrapper completing the `xtoi` model: zero digits consumed is a failure. -/
def xtoi (s : List Char) : Nat × Nat × Bool :=
  match xtoiAux s 0 0 with
  | (n, i, ok) => if i = 0 then (0, i, false) else (n, i, ok)

/-- Post-loop completion of Go `net.parseIPv6`: rejects trailing input,
expands a `::` ellipsis with zero bytes, and rejects an ellipsis in an
already-full address. -/
def parseIPv6Finish (acc : List Nat) (ellipsis : Option Nat) (s : List Char) : IP :=
  if !s.isEmpty then []
  else if acc.length < 16 then
    match ellipsis with
    | none => []
    | some e => acc.take e ++ List.replicate (16 - acc.length) 0 ++ acc.drop e
  else
    match ellipsis with
    | some _ => []
    | none => acc

/-- The group-reading loop of Go `net.parseIPv6`; `fuel` bounds the
number of 16-bit groups (at most 8, each iteration adds two bytes). -/
def parseIPv6Loop : Nat → List Nat → Option Nat → List Char → IP
  | 0, acc, ellipsis, s => parseIPv6Finish acc ellipsis s
  | fuel + 1, acc, ellipsis, s =>
    if acc.length ≥ 16 then parseIPv6Finish acc ellipsis s
    else
      match xtoi s with
      | (n, c, ok) =>
        if !ok || n > 0xFFFF then []
        else if s.get? c = some '.' then
          -- embedded IPv4 at the tail of the address
          if ellipsis = none && acc.length ≠ 12 then []
          else if acc.length + 4 > 16 then []
          else
            match parseIPv4 s with
            | [] => []
            | ip4 => parseIPv6Finish (acc ++ ip4.drop 12) ellipsis []
        else
          let acc' := acc ++ [n / 256, n % 256]
          let s' := s.drop c
          if s'.isEmpty then parseIPv6Finish acc' ellipsis s'
          else if s'.head? ≠ some ':' || s'.length = 1 then []
          else
            let s'' := s'.drop 1
            if s''.head? = some ':' then
              if ellipsis.isSome then []
              else
                let s''' := s''.drop 1
                if s'''.isEmpty then parseIPv6Finish acc' (some acc'.length) s'''
                else parseIPv6Loop fuel acc' (some acc'.length) s'''
            else parseIPv6Loop fuel acc' ellipsis s''

/-- Model of Go `net.parseIPv6` (zone already stripped): hexadecimal
16-bit groups separated by `:`, at most one `::` ellipsis, optional
embedded dotted-quad IPv4 tail. -/
def parseIPv6 (s : List Char) : IP :=
  if hasPrefixL s [':', ':'] then
    let s' := s.drop 2
    if s'.isEmpty then List.replicate 16 0
    else parseIPv6Loop 8 [] (some 0) s'
  else parseIPv6Loop 8 [] none s

/-- Model of Go `net.splitHostZone`: strip an IPv6 zone suffix
(`%zone`, split at the last `%` when its index is positive). -/
def splitHostZone (s : List Char) : List Char :=
  match lastIdx '%' s with
  | some i => if i > 0 then s.take i else s
  | none => s

/-- Scan for the first `.` or `:` of `orig` (Go's `for` loop in `ParseIP`). -/
def parseIPDispatchAux (orig : List Char) : List Char → IP
  | [] => []
  | c :: rest =>
    if c = '.' then parseIPv4 orig
    else if c = ':' then parseIPv6 (splitHostZone orig)
    else parseIPDispatchAux orig rest

/-- Model of Go `net.ParseIP`: dispatch on the first `.` or `:`
character to the IPv4 or IPv6 parser; `[]` models the `nil` failure
result.  Percent-escapes do not occur in the addresses handled here. -/
def ParseIP (s : String) : IP :=
  parseIPDispatchAux s.data s.data

/-! Section: Model of Go `net.SplitHostPort` -/

/-- Model of Go `net.SplitHostPort`: split `host:port` or
`[host]:port` at the last colon; `none` models every error return
(missing port, too many colons, stray brackets). -/
def SplitHostPort (hostport : String) : Option (String × String) :=
  let cs := hostport.data
  match lastIdx ':' cs with
  | none => none
  | some i =>
    if cs.head? = some '[' then
      match firstIdx ']' cs with
      | none => none
      | some endIdx =>
        if endIdx + 1 = cs.length then none
        else if endIdx + 1 = i then
          -- host is the bracketed section; check for stray brackets after it
          if (cs.drop 1).contains '[' || (cs.drop (endIdx + 1)).contains ']' then none
          else some (String.mk ((cs.drop 1).take (endIdx - 1)), String.mk (cs.drop (i + 1)))
        else none
    else
      let host := cs.take i
      if host.contains ':' then none
      else if cs.contains '[' || cs.contains ']' then none
      else some (String.mk host, String.mk (cs.drop (i + 1)))

/-! Section: Model of Go `net/url.Parse` host extraction

The server only reads `parsedURL.Host` of a value that is guaranteed to
start with `http://` or `https://`.  The model extracts the authority
(up to the first `/`, `?` or `#`) and drops any userinfo (up to the
last `@`).  Percent-escapes and the stdlib's host-character validation
are not modelled; they cannot change which endpoint values yield a
parseable literal IP address. -/

/-- Host component of a URL of the shape `scheme://authority[/...]`. -/
def urlParseHost (value : String) : Option String :=
  let rest : Option (List Char) :=
    if hasPrefixS value "http://" then some (value.data.drop 7)
    else if hasPrefixS value "https://" then some (value.data.drop 8)
    else none
  match rest with
  | none => none
  | some r =>
    let authority := r.takeWhile (fun c => c ≠ '/' && c ≠ '?' && c ≠ '#')
    match lastIdx '@' authority with
    | some i => some (String.mk (authority.drop (i + 1)))
    | none => some (String.mk authority)

/-! Section: Model of the miekg/dns library surface used by the server -/

/-- DNS type `A`. -/
def TypeA : Nat := 1
/-- DNS type `AAAA`. -/
def TypeAAAA : Nat := 28
/-- DNS type `SRV`. -/
def TypeSRV : Nat := 33
/-- DNS class `INET`. -/
def ClassINET : Nat := 1
/-- DNS response code: success. -/
def RcodeSuccess : Nat := 0
/-- DNS response code: format error. -/
def RcodeFormatError : Nat := 1
/-- DNS response code: server failure. -/
def RcodeServerFailure : Nat := 2
/-- DNS response code: name error (NXDOMAIN). -/
def RcodeNameError : Nat := 3

/-- Model of miekg/dns `SplitDomainName`: the labels of a domain name,
the trailing root dot excluded (label escapes such as `\.` are not
modelled; the server's grammar never produces them). -/
def SplitDomainName (s : String) : List String :=
  if s = "" || s = "." then []
  else
    let cs := s.data
    let cs := if cs.getLast? = some '.' then cs.dropLast else cs
    (splitOnChar '.' cs).map String.mk

/-- Model of miekg/dns `IsDomainName`: the label count together with a
validity flag requiring every label to be nonempty and at most 63 bytes
(as the source comment notes, the check is liberal: no total-length
bound). -/
def IsDomainName (s : String) : Nat × Bool :=
  let ls := SplitDomainName s
  (ls.length, s ≠ "" && ls.all (fun l => l.data.length ≥ 1 && l.data.length ≤ 63))

/-- miekg/dns resource-record header. -/
structure RR_Header where
  Name : String
  Rrtype : Nat
  Class : Nat
  Ttl : Nat
deriving DecidableEq, Repr

/-- The three resource-record shapes the server constructs
(miekg/dns `dns.A`, `dns.AAAA`, `dns.SRV`). -/
inductive RR where
  | A (Hdr : RR_Header) (addr : IP)
  | AAAA (Hdr : RR_Header) (addr : IP)
  | SRV (Hdr : RR_Header) (Priority Weight Port : Nat) (Target : String)
deriving DecidableEq, Repr

/-- A DNS question (miekg/dns `dns.Question`). -/
structure Question where
  Name : String
  Qtype : Nat
  Qclass : Nat
deriving DecidableEq, Repr

/-- The fields of a miekg/dns `dns.Msg` the server reads or writes. -/
structure Msg where
  Question : List Question
  Answer : List RR
  Extra : List RR
  Rcode : Nat
  Authoritative : Bool
  RecursionAvailable : Bool
deriving DecidableEq, Repr

/-- miekg/dns `Msg.SetRcode(request, rcode)`: on an already-initialized
reply the embedded `SetReply(request)` call re-copies fields that are
unchanged here, so the observable effect is setting the response code. -/
def Msg.setRcode (m : Msg) (rcode : Nat) : Msg := { m with Rcode := rcode }

/-! Section: Data model (`registry/client` types used by the server) -/

/-- `client.ServiceEndpoint`: a typed network endpoint. -/
structure ServiceEndpoint where
  Type' : String
  Value : String
deriving DecidableEq, Repr

/-- `client.ServiceInstance` (the fields the DNS server reads). -/
structure ServiceInstance where
  ID : String
  Endpoint : ServiceEndpoint
deriving DecidableEq, Repr

/-- `client.InstanceFilter` (the fields the DNS server sets). -/
structure InstanceFilter where
  ServiceName : String
  Tags : List String
deriving DecidableEq, Repr

/-- The `client.Discovery` dependency: `ListInstances` as a function
from a filter to instances or an error. -/
def Discovery := InstanceFilter → Except String (List ServiceInstance)

/-- `dns.Config`: the DNS server configuration. -/
structure Config where
  DiscoveryClient : Discovery
  Port : Nat
  Domain : String

/-! Section: `sidecar/dns/server.go`: record synthesis -/

/-- `createARecord`: an A-typed record (class INET, TTL 0). -/
def createARecord (name : String) (ip : IP) : RR :=
  RR.A { Name := name, Rrtype := TypeA, Class := ClassINET, Ttl := 0 } ip

/-- `createAAAARecord`: an AAAA-typed record (class INET, TTL 0). -/
def createAAAARecord (name : String) (ip : IP) : RR :=
  RR.AAAA { Name := name, Rrtype := TypeAAAA, Class := ClassINET, Ttl := 0 } ip

/-- `createSRVRecord`: an SRV record with priority and weight 0. -/
def createSRVRecord (name : String) (port : Nat) (target : String) : RR :=
  RR.SRV { Name := name, Rrtype := TypeSRV, Class := ClassINET, Ttl := 0 } 0 0 port target

/-- `splitHostPortTCPUDP`: parse `host[:port]`, defaulting a missing
port to `"0"`; the host must be a literal IP address.  The Go
`uint16(portNum)` conversion is the explicit `% 2^16` on the parsed
integer. -/
def splitHostPortTCPUDP (value : String) : Option (IP × Nat) :=
  let hostPort :=
    match SplitHostPort value with
    | some hp => hp
    | none => (value, "0")
  let ip := ParseIP hostPort.1
  if ip = [] then none
  else
    match Atoi hostPort.2 with
    | none => none
    | some portNum => some (ip, (portNum % (2 ^ 16 : Int)).toNat)

/-- `splitHostPortHTTP`: default the scheme to `http://` when absent,
take the URL's host, and replace a zero port by the scheme's default
(80 for http, 443 for https). -/
def splitHostPortHTTP (value : String) : Option (IP × Nat) :=
  let isHTTP := hasPrefixS value "http://"
  let isHTTPS := hasPrefixS value "https://"
  let valueHTTP : String × Bool :=
    if !isHTTPS && !isHTTP then ("http://" ++ value, true) else (value, isHTTP)
  let value := valueHTTP.1
  let isHTTP := valueHTTP.2
  match urlParseHost value with
  | none => none
  | some host =>
    match splitHostPortTCPUDP host with
    | none => none
    | some (ip, port) =>
      let port := if port = 0 then (if isHTTP then 80 else if isHTTPS then 443 else port) else port
      some (ip, port)

/-- `splitHostPort`: dispatch on the endpoint type; unknown types fail
(the instance will be skipped). -/
def splitHostPort (endpoint : ServiceEndpoint) : Option (IP × Nat) :=
  if endpoint.Type' = "tcp" || endpoint.Type' = "udp" then splitHostPortTCPUDP endpoint.Value
  else if endpoint.Type' = "http" || endpoint.Type' = "https" then splitHostPortHTTP endpoint.Value
  else none

/-- The record-building loop of `createRecordsForInstances`: one pass
over the instances, producing the answer and extra lists in instance
order; instances whose endpoint fails to parse are skipped. -/
def buildRecords (cfg : Config) (question : Question) :
    List ServiceInstance → List RR × List RR
  | [] => ([], [])
  | si :: rest =>
    let tail := buildRecords cfg question rest
    match splitHostPort si.Endpoint with
    | none => tail  -- skipped with a logged warning
    | some (ip, port) =>
      if question.Qtype = TypeA then
        let ipV4 := ip.To4
        if ipV4 ≠ [] then (createARecord question.Name ipV4 :: tail.1, tail.2) else tail
      else if question.Qtype = TypeAAAA then
        let ipV4 := ip.To4
        if ipV4 = [] then (createARecord question.Name ip.To16 :: tail.1, tail.2) else tail
      else if question.Qtype = TypeSRV then
        let target := si.ID ++ ".instance." ++ cfg.Domain ++ "."
        let srv := createSRVRecord question.Name port target
        let ipV4 := ip.To4
        let extraRec :=
          if ipV4 ≠ [] then createARecord question.Name ipV4
          else createAAAARecord question.Name ip.To16
        (srv :: tail.1, extraRec :: tail.2)
      else tail

/-- Swap the elements at positions `i` and `j` (Go's parallel
assignment `records[i], records[j] = records[j], records[i]`). -/
def listSwap (l : List RR) (i j : Nat) : List RR :=
  match l.get? i, l.get? j with
  | some a, some b => (l.set i b).set j a
  | _, _ => l

/-- `shuffleRecords`: the Fisher-Yates pass of the source, with the
process-wide generator replaced by an explicit source `rnd`;
`rnd i % (i + 1)` models `rand.Intn(i + 1)`. -/
def shuffleRecords (rnd : Nat → Nat) (records : List RR) : List RR :=
  (List.range records.length).foldl (fun recs i => listSwap recs i (rnd i % (i + 1))) records

/-- `createRecordsForInstances`: build records for the resolved
instances; zero answers degrade to a name error (a success path),
otherwise both lists are shuffled and appended to the response. -/
def createRecordsForInstances (cfg : Config) (rnd1 rnd2 : Nat → Nat) (question : Question)
    (request response : Msg) (serviceInstances : List ServiceInstance) : Msg × Option String :=
  let records := buildRecords cfg question serviceInstances
  let answer := records.1
  let extra := records.2
  if answer.length = 0 then
    (response.setRcode RcodeNameError, none)
  else
    let answer := shuffleRecords rnd1 answer
    let extra := shuffleRecords rnd2 extra
    ({ response with
        Answer := response.Answer ++ answer,
        Extra := response.Extra ++ extra,
        Rcode := RcodeSuccess }, none)

/-! Section: `sidecar/dns/server.go`: catalog dispatch and name parsing -/

/-- The tag/protocol split loop of `retrieveInstancesForServiceQuery`:
a token equal to one of the four endpoint types is the protocol filter
(a second one is an error, modelled as `none`); every other token is an
opaque tag. -/
def splitTagsAndProtocol : List String → String → List String → Option (String × List String)
  | [], protocol, tags => some (protocol, tags)
  | tag :: rest, protocol, tags =>
    if tag = "tcp" || tag = "udp" || tag = "http" || tag = "https" then
      if protocol ≠ "" then none
      else splitTagsAndProtocol rest tag tags
    else splitTagsAndProtocol rest protocol (tags ++ [tag])

/-- `retrieveInstancesForServiceQuery`: split tags from the protocol
filter, dispatch to the discovery client, then retain only instances
whose endpoint type equals the protocol filter (the source's in-place
stable filter). -/
def retrieveInstancesForServiceQuery (cfg : Config) (serviceName : String)
    (request response : Msg) (tagOrProtocol : List String) :
    Msg × List ServiceInstance × Option String :=
  match splitTagsAndProtocol tagOrProtocol "" [] with
  | none =>
    (response.setRcode RcodeFormatError, [],
      some "invalid DNS query: more than one protocol specified")
  | some (protocol, tags) =>
    match cfg.DiscoveryClient { ServiceName := serviceName, Tags := tags } with
    | .error e => (response.setRcode RcodeServerFailure, [], some e)
    | .ok serviceInstances =>
      let serviceInstances :=
        if protocol ≠ "" then
          serviceInstances.filter (fun si => si.Endpoint.Type' = protocol)
        else serviceInstances
      (response, serviceInstances, none)

/-- `retrieveInstancesForInstanceQuery`: full listing from the
discovery client, then a linear scan for the first instance with the
requested ID. -/
def retrieveInstancesForInstanceQuery (cfg : Config) (instanceID : String)
    (request response : Msg) : Msg × List ServiceInstance × Option String :=
  match cfg.DiscoveryClient { ServiceName := "", Tags := [] } with
  | .error e => (response.setRcode RcodeServerFailure, [], some e)
  | .ok serviceInstances =>
    match serviceInstances.find? (fun si => si.ID = instanceID) with
    | some si => (response, [si], none)
    | none =>
      (response.setRcode RcodeNameError, [],
        some ("Error : didn't find a service with the id given " ++ instanceID))

/-- `retrieveServices`: validate the question name, split it into
labels, and dispatch on the shape (`*.service.*`, SRV shorthand, or
`<id>.instance.*`); a name matching no branch yields no instances and
no error.  (For the unreachable root name `"."` the Go code would index
out of bounds; the model's `getD` total lookup takes the no-branch
path.) -/
def retrieveServices (cfg : Config) (question : Question) (request response : Msg) :
    Msg × List ServiceInstance × Option String :=
  let dn := IsDomainName question.Name
  let numberOfLabels := dn.1
  if !dn.2 then
    (response.setRcode RcodeFormatError, [],
      some ("Invalid Domain name " ++ question.Name))
  else
    let fullDomainRequestArray := SplitDomainName question.Name
    if fullDomainRequestArray.length = 1 || fullDomainRequestArray.length = 2 then
      (response.setRcode RcodeNameError, [],
        some ("service name wasn't included in domain " ++ question.Name))
    else if fullDomainRequestArray.getD (numberOfLabels - 2) "" = "service" then
      if question.Qtype = TypeSRV && numberOfLabels = 4 &&
          hasPrefixS (fullDomainRequestArray.getD 0 "") "_" &&
          hasPrefixS (fullDomainRequestArray.getD 1 "") "_" then
        let tagOrProtocol := (fullDomainRequestArray.getD 1 "").drop 1
        let serviceName := (fullDomainRequestArray.getD 0 "").drop 1
        retrieveInstancesForServiceQuery cfg serviceName request response [tagOrProtocol]
      else
        let serviceName := fullDomainRequestArray.getD (numberOfLabels - 3) ""
        let tagsOrProtocol := fullDomainRequestArray.take (numberOfLabels - 3)
        retrieveInstancesForServiceQuery cfg serviceName request response tagsOrProtocol
    else if fullDomainRequestArray.getD (numberOfLabels - 2) "" = "instance" &&
        (question.Qtype = TypeA || question.Qtype = TypeAAAA) && numberOfLabels = 3 then
      let instanceID := fullDomainRequestArray.getD 0 ""
      retrieveInstancesForInstanceQuery cfg instanceID request response
    else
      (response, [], none)

/-! Section: `sidecar/dns/server.go`: per-question and per-request handling -/

/-- `handleQuestion`: reject classes other than INET and types other
than A/AAAA/SRV with a server failure, then resolve instances and
synthesize records. -/
def handleQuestion (cfg : Config) (rnd1 rnd2 : Nat → Nat) (question : Question)
    (request response : Msg) : Msg × Option String :=
  if question.Qclass ≠ ClassINET then
    (response.setRcode RcodeServerFailure,
      some "unsupported DNS question class")
  else if question.Qtype ≠ TypeA && question.Qtype ≠ TypeAAAA && question.Qtype ≠ TypeSRV then
    (response.setRcode RcodeServerFailure,
      some "unsupported DNS question type")
  else
    match retrieveServices cfg question request response with
    | (response, _, some e) => (response, some e)
    | (response, serviceInstances, none) =>
      createRecordsForInstances cfg rnd1 rnd2 question request response serviceInstances

/-- The reply skeleton built at the top of `handleRequest`
(`SetReply` plus the explicit `Extra`/`Authoritative`/
`RecursionAvailable` assignments). -/
def initialResponse (request : Msg) : Msg :=
  { Question := request.Question
    Answer := []
    Extra := request.Extra
    Rcode := RcodeSuccess
    Authoritative := true
    RecursionAvailable := false }

/-- The question loop of `handleRequest`: questions are processed in
order; the first question whose handler returns an error stops the
loop (`break`).  `rnds k` is the random source consumed by the `k`-th
shuffle call of the request. -/
def questionsLoop (cfg : Config) (rnds : Nat → Nat → Nat) (request : Msg) :
    List Question → Nat → Msg → Msg
  | [], _, response => response
  | q :: qs, i, response =>
    match handleQuestion cfg (rnds (2 * i)) (rnds (2 * i + 1)) q request response with
    | (response, some _) => response  -- break: error logged, loop stops
    | (response, none) => questionsLoop cfg rnds request qs (i + 1) response

/-- `handleRequest`: build the reply skeleton and run every question
through `handleQuestion`, stopping at the first error; the resulting
message is what `WriteMsg` sends. -/
def handleRequest (cfg : Config) (rnds : Nat → Nat → Nat) (request : Msg) : Msg :=
  questionsLoop cfg rnds request request.Question 0 (initialResponse request)

/-! Section: Specification-side record descriptions

These definitions follow the spec's words for the records an SRV/AAAA
query should produce, to be compared with what `buildRecords` computes. -/

/-- Per the spec: for every instance whose endpoint parses, one SRV
record with `Target = "<instanceID>.instance.<domain>."`, the parsed
port, and priority and weight 0. -/
def spec_srvAnswer (cfg : Config) (q : Question) (instances : List ServiceInstance) : List RR :=
  instances.filterMap (fun si =>
    (splitHostPort si.Endpoint).map (fun p =>
      RR.SRV { Name := q.Name, Rrtype := TypeSRV, Class := ClassINET, Ttl := 0 } 0 0 p.2
        (si.ID ++ ".instance." ++ cfg.Domain ++ ".")))

/-- Per the spec: for every instance whose endpoint parses, one extra
address record — A if the address has a valid 4-byte form, AAAA
otherwise. -/
def spec_srvExtra (cfg : Config) (q : Question) (instances : List ServiceInstance) : List RR :=
  instances.filterMap (fun si =>
    (splitHostPort si.Endpoint).map (fun p =>
      if IP.To4 p.1 ≠ [] then createARecord q.Name (IP.To4 p.1)
      else createAAAARecord q.Name (IP.To16 p.1)))

/-- Per the spec: for an AAAA query, one answer record per instance
whose address does not have a valid 4-byte form, built by the A-record
constructor (record type A, class INET, TTL 0) and carrying the 16-byte
address; instances with a 4-byte form contribute nothing. -/
def spec_aaaaAnswer (q : Question) (instances : List ServiceInstance) : List RR :=
  instances.filterMap (fun si =>
    match splitHostPort si.Endpoint with
    | none => none
    | some p =>
      if IP.To4 p.1 = [] then
        some (RR.A { Name := q.Name, Rrtype := TypeA, Class := ClassINET, Ttl := 0 } (IP.To16 p.1))
      else none)

/-- The number of resolved instances whose endpoint parses to an
address/port pair (the instances that are not skipped). -/
def parsedCount (instances : List ServiceInstance) : Nat :=
  (instances.filter (fun si => (splitHostPort si.Endpoint).isSome)).length

/-! Section: Concrete fixtures used by witnesses and counterexamples -/

/-- The spec's example instance: service `reviews`, http endpoint. -/
def instHttp : ServiceInstance :=
  { ID := "abc123", Endpoint := { Type' := "http", Value := "192.168.1.10:9080" } }

/-- A tcp instance with an IPv4 endpoint. -/
def instTcp : ServiceInstance :=
  { ID := "tcpinst", Endpoint := { Type' := "tcp", Value := "10.0.0.5:9090" } }

/-- A tcp instance with an IPv6 endpoint. -/
def instV6 : ServiceInstance :=
  { ID := "v6inst", Endpoint := { Type' := "tcp", Value := "[::1]:8080" } }

/-- An instance with an unknown endpoint type (always skipped). -/
def instBad : ServiceInstance :=
  { ID := "badinst", Endpoint := { Type' := "foo", Value := "10.0.0.5" } }

/-- A catalog holding `instHttp` under service name `reviews`. -/
def catalogReviews : Discovery :=
  fun f => .ok (if f.ServiceName = "reviews" then [instHttp] else [])

/-- Configuration with the spec's example domain `example.com`. -/
def cfgExample : Config :=
  { DiscoveryClient := catalogReviews, Port := 53, Domain := "example.com" }

/-- Configuration with a single-label domain `local`. -/
def cfgLocal : Config :=
  { DiscoveryClient := catalogReviews, Port := 53, Domain := "local" }

/-- A constant random source. -/
def rnd0 : Nat → Nat := fun _ => 0

/-- A constant per-request random source. -/
def rnds0 : Nat → Nat → Nat := fun _ _ => 0

/-- An empty DNS message. -/
def emptyMsg : Msg :=
  { Question := [], Answer := [], Extra := [], Rcode := 0,
    Authoritative := false, RecursionAvailable := false }

/-- A request carrying the given questions. -/
def mkRequest (qs : List Question) : Msg := { emptyMsg with Question := qs }

/-- The spec's SRV-shorthand question under `example.com`. -/
def qC1 : Question :=
  { Name := "_reviews._http.example.com.", Qtype := TypeSRV, Qclass := ClassINET }

/-- A question with a class other than INET (CHAOS, class 3). -/
def qChaos : Question :=
  { Name := "reviews.service.local.", Qtype := TypeA, Qclass := 3 }

/-- An SRV question of instance-query shape (3 labels). -/
def qSrvInst : Question :=
  { Name := "abc123.instance.local.", Qtype := TypeSRV, Qclass := ClassINET }

/-- A catalog returning one http and one tcp instance for every filter. -/
def catalogMixed : Discovery := fun _ => .ok [instHttp, instTcp]

/-- Configuration over the mixed catalog. -/
def cfgMixed : Config := { DiscoveryClient := catalogMixed, Port := 53, Domain := "local" }

/-- An A-type question for `reviews.service.local.`. -/
def qReviewsA : Question :=
  { Name := "reviews.service.local.", Qtype := TypeA, Qclass := ClassINET }

/-- The SRV question shape the code accepts under domain `local`. -/
def qSrvLocal : Question :=
  { Name := "_reviews._http.service.local.", Qtype := TypeSRV, Qclass := ClassINET }

/-- An AAAA question for `reviews.service.local.`. -/
def qReviewsAAAA : Question :=
  { Name := "reviews.service.local.", Qtype := TypeAAAA, Qclass := ClassINET }

/-- An A-type question for an unknown service. -/
def qNoSuch : Question :=
  { Name := "nosuch.service.local.", Qtype := TypeA, Qclass := ClassINET }

/-- The concrete two-question request: unknown service first, then `reviews`. -/
def reqC10 : Msg := mkRequest [qNoSuch, qReviewsA]

/-- The response after the first (name-error) question of `reqC10`. -/
def c10AfterQ1 : Msg :=
  { Question := [qNoSuch, qReviewsA], Answer := [], Extra := [], Rcode := RcodeNameError,
    Authoritative := true, RecursionAvailable := false }

/-- The final response of `reqC10`: the second question's A record with the
response code overwritten to success. -/
def c10Final : Msg :=
  { c10AfterQ1 with
    Answer := [RR.A { Name := "reviews.service.local.", Rrtype := TypeA, Class := ClassINET,
                      Ttl := 0 } [192, 168, 1, 10]],
    Rcode := RcodeSuccess }

/-! Section: Helper lemmas: record building -/

theorem buildRecords_srv (cfg : Config) (q : Question) (hq : q.Qtype = TypeSRV) :
    ∀ instances : List ServiceInstance,
      buildRecords cfg q instances = (spec_srvAnswer cfg q instances, spec_srvExtra cfg q instances)
  | [] => rfl
  | si :: rest => by
    have ih := buildRecords_srv cfg q hq rest
    simp only [buildRecords, spec_srvAnswer, spec_srvExtra, List.filterMap_cons, hq, ih]
    cases hsp : splitHostPort si.Endpoint with
    | none => simp [spec_srvAnswer, spec_srvExtra]
    | some p =>
      obtain ⟨ip, port⟩ := p
      simp [spec_srvAnswer, spec_srvExtra, TypeSRV, TypeA, TypeAAAA, createSRVRecord]

theorem buildRecords_aaaa (cfg : Config) (q : Question) (hq : q.Qtype = TypeAAAA) :
    ∀ instances : List ServiceInstance,
      buildRecords cfg q instances = (spec_aaaaAnswer q instances, [])
  | [] => rfl
  | si :: rest => by
    have ih := buildRecords_aaaa cfg q hq rest
    simp only [buildRecords, spec_aaaaAnswer, List.filterMap_cons, hq, ih]
    cases hsp : splitHostPort si.Endpoint with
    | none => simp [spec_aaaaAnswer]
    | some p =>
      obtain ⟨ip, port⟩ := p
      by_cases h4 : IP.To4 ip = []
      · simp [spec_aaaaAnswer, TypeAAAA, TypeA, createARecord, h4]
      · simp [spec_aaaaAnswer, TypeAAAA, TypeA, createARecord, h4]

theorem spec_srv_lengths (cfg : Config) (q : Question) :
    ∀ instances : List ServiceInstance,
      (spec_srvAnswer cfg q instances).length = parsedCount instances ∧
      (spec_srvExtra cfg q instances).length = parsedCount instances
  | [] => ⟨rfl, rfl⟩
  | si :: rest => by
    have ih := spec_srv_lengths cfg q rest
    simp only [spec_srvAnswer, spec_srvExtra, parsedCount, List.filterMap_cons, List.filter_cons]
    cases hsp : splitHostPort si.Endpoint with
    | none =>
      simpa [spec_srvAnswer, spec_srvExtra, parsedCount] using ih
    | some p =>
      simp only [Option.map_some', Option.isSome_some]
      constructor
      · simpa [spec_srvAnswer, parsedCount] using ih.1
      · simpa [spec_srvExtra, parsedCount] using ih.2

/-! Section: Helper lemmas: the shuffle is a permutation -/

theorem perm_cons_set (a : RR) :
    ∀ (t : List RR) (m : Nat) (b : RR), t.get? m = some b →
      List.Perm (b :: t.set m a) (a :: t)
  | [], m, b, h => by simp at h
  | x :: xs, 0, b, h => by
    have hb : x = b := by simpa using h
    subst hb
    exact List.Perm.swap a x xs
  | x :: xs, m + 1, b, h => by
    have ih := perm_cons_set a xs m b h
    have s1 : List.Perm (b :: x :: xs.set m a) (x :: b :: xs.set m a) := List.Perm.swap x b _
    have s2 : List.Perm (x :: b :: xs.set m a) (x :: a :: xs) := List.Perm.cons x ih
    have s3 : List.Perm (x :: a :: xs) (a :: x :: xs) := List.Perm.swap a x xs
    exact s1.trans (s2.trans s3)

theorem set_set_get_perm :
    ∀ (l : List RR) (i j : Nat) (a b : RR),
      l.get? i = some a → l.get? j = some b →
      List.Perm ((l.set i b).set j a) l
  | [], i, _, _, _, hi, _ => by simp at hi
  | x :: xs, 0, 0, a, b, hi, hj => by
    have ha : x = a := by simpa using hi
    subst ha
    exact List.Perm.refl _
  | x :: xs, 0, j + 1, a, b, hi, hj => by
    have ha : x = a := by simpa using hi
    have hj' : xs.get? j = some b := by simpa using hj
    subst ha
    exact perm_cons_set x xs j b hj'
  | x :: xs, i + 1, 0, a, b, hi, hj => by
    have hb : x = b := by simpa using hj
    have hi' : xs.get? i = some a := by simpa using hi
    subst hb
    exact perm_cons_set x xs i a hi'
  | x :: xs, i + 1, j + 1, a, b, hi, hj => by
    have hi' : xs.get? i = some a := by simpa using hi
    have hj' : xs.get? j = some b := by simpa using hj
    exact List.Perm.cons x (set_set_get_perm xs i j a b hi' hj')

theorem listSwap_perm (l : List RR) (i j : Nat) : List.Perm (listSwap l i j) l := by
  unfold listSwap
  cases hi : l.get? i with
  | none => exact List.Perm.refl l
  | some a =>
    cases hj : l.get? j with
    | none => exact List.Perm.refl l
    | some b => exact set_set_get_perm l i j a b hi hj

theorem foldl_swap_perm (rnd : Nat → Nat) :
    ∀ (idxs : List Nat) (init : List RR),
      List.Perm (idxs.foldl (fun recs i => listSwap recs i (rnd i % (i + 1))) init) init
  | [], _ => List.Perm.refl _
  | i :: rest, init => by
    have ih := foldl_swap_perm rnd rest (listSwap init i (rnd i % (i + 1)))
    exact List.Perm.trans ih (listSwap_perm init i (rnd i % (i + 1)))

/-- The output of `shuffleRecords` is a permutation of its input. -/
theorem shuffleRecords_perm (rnd : Nat → Nat) (l : List RR) :
    List.Perm (shuffleRecords rnd l) l :=
  foldl_swap_perm rnd (List.range l.length) l

theorem shuffleRecords_coe (rnd : Nat → Nat) (l : List RR) :
    ((shuffleRecords rnd l : List RR) : Multiset RR) = (l : Multiset RR) :=
  Multiset.coe_eq_coe.mpr (shuffleRecords_perm rnd l)


/-! Section: Claim C1 -/

/-- C1: the spec says the 4-label SRV shorthand `_reviews._http.example.com.`
resolves service `reviews` and returns one SRV plus one extra A record.  The
code instead requires the second-to-last label to equal `service`, so under
the multi-label domain `example.com` the query matches no branch: the response
is a name error with no answer and no extra records, even though the catalog
does hold the instance under service `reviews`.  This contradicts the source's
own comment documenting the query format
`_<service>._<tag or endpoint type>.<domain>.`. -/
theorem c1_srv_shorthand_code_bug :
    catalogReviews { ServiceName := "reviews", Tags := [] } = .ok [instHttp] ∧
    (handleRequest cfgExample rnds0 (mkRequest [qC1])).Rcode = RcodeNameError ∧
    (handleRequest cfgExample rnds0 (mkRequest [qC1])).Answer = [] ∧
    (handleRequest cfgExample rnds0 (mkRequest [qC1])).Extra = [] := by
  refine ⟨rfl, ?_, ?_, ?_⟩ <;> decide

/-! Section: Claim C4 -/

/-- C4 counterexample: the spec classifies a disallowed question class as a
format error, but handling `qChaos` (class CHAOS) sets the response code to
server failure, not format error. -/
theorem c4_class_counterexample :
    (handleQuestion cfgLocal rnd0 rnd0 qChaos emptyMsg emptyMsg).1.Rcode ≠ RcodeFormatError ∧
    (handleQuestion cfgLocal rnd0 rnd0 qChaos emptyMsg emptyMsg).1.Rcode = RcodeServerFailure := by
  refine ⟨?_, ?_⟩ <;> decide

/-- C4 amended: for every DNS question whose class is not INET, handling
fails and the response code is set to server failure (not format error). -/
theorem c4_class_server_failure (cfg : Config) (rnd1 rnd2 : Nat → Nat) (q : Question)
    (request response : Msg) (h : q.Qclass ≠ ClassINET) :
    handleQuestion cfg rnd1 rnd2 q request response
      = (response.setRcode RcodeServerFailure, some "unsupported DNS question class") := by
  simp [handleQuestion, h]

/-- C4 witness: the amended statement at the concrete CHAOS-class question. -/
theorem c4_class_witness :
    qChaos.Qclass ≠ ClassINET ∧
    handleQuestion cfgLocal rnd0 rnd0 qChaos emptyMsg emptyMsg
      = (emptyMsg.setRcode RcodeServerFailure, some "unsupported DNS question class") :=
  ⟨by decide, c4_class_server_failure cfgLocal rnd0 rnd0 qChaos emptyMsg emptyMsg (by decide)⟩

/-! Section: Claim C5 -/

/-- C5 counterexample: the spec says an SRV instance query is rejected with
server failure; the code instead answers it with a name error and no error
value (the instance branch only accepts types A and AAAA, so no branch
matches and the empty record set degrades to name error). -/
theorem c5_srv_instance_counterexample :
    (handleQuestion cfgLocal rnd0 rnd0 qSrvInst emptyMsg emptyMsg).1.Rcode = RcodeNameError ∧
    (handleQuestion cfgLocal rnd0 rnd0 qSrvInst emptyMsg emptyMsg).2 = none ∧
    RcodeNameError ≠ RcodeServerFailure := by
  refine ⟨?_, ?_, ?_⟩ <;> decide

/-- Auxiliary: the label count reported by `IsDomainName` is the length of
`SplitDomainName`. -/
theorem isDomainName_fst (s : String) :
    (IsDomainName s).1 = (SplitDomainName s).length := rfl

/-- C5 amended: an SRV question whose (valid) name has exactly 3 labels with
`instance` in the middle matches no resolution branch; it yields zero answer
records, the response code is set to name error, and no error is returned. -/
theorem c5_srv_instance_name_error (cfg : Config) (rnd1 rnd2 : Nat → Nat) (q : Question)
    (request response : Msg) (id dom : String)
    (hc : q.Qclass = ClassINET) (ht : q.Qtype = TypeSRV)
    (hn : SplitDomainName q.Name = [id, "instance", dom])
    (hv : (IsDomainName q.Name).2 = true) :
    handleQuestion cfg rnd1 rnd2 q request response = (response.setRcode RcodeNameError, none) := by
  have hretr : retrieveServices cfg q request response = (response, [], none) := by
    simp only [retrieveServices, isDomainName_fst, hn, hv]
    simp [ht, TypeSRV, TypeA, TypeAAAA, List.getD]
  simp only [handleQuestion, hc, ht, hretr]
  simp [TypeSRV, TypeA, TypeAAAA, ClassINET, createRecordsForInstances, buildRecords]

/-- C5 witness: the amended statement at the concrete SRV instance query. -/
theorem c5_srv_instance_witness :
    qSrvInst.Qclass = ClassINET ∧ qSrvInst.Qtype = TypeSRV ∧
    SplitDomainName qSrvInst.Name = ["abc123", "instance", "local"] ∧
    (IsDomainName qSrvInst.Name).2 = true ∧
    handleQuestion cfgLocal rnd0 rnd0 qSrvInst emptyMsg emptyMsg
      = (emptyMsg.setRcode RcodeNameError, none) :=
  ⟨rfl, rfl, by decide, by decide,
    c5_srv_instance_name_error cfgLocal rnd0 rnd0 qSrvInst emptyMsg emptyMsg
      "abc123" "local" rfl rfl (by decide) (by decide)⟩

/-! Section: Claim C6 -/

/-- C6: with a protocol filter `P` (exactly one protocol token among the
tag-or-protocol tokens) and a successful discovery call returning `l`, the
resolved instances are exactly `l.filter (endpoint type = P)` with no error:
an order-preserving subsequence of the client's result none of whose members
has an endpoint type other than `P`; an empty filter result is not an
error. -/
theorem c6_protocol_filter (cfg : Config) (serviceName : String) (request response : Msg)
    (toks tags : List String) (P : String) (l : List ServiceInstance)
    (hsplit : splitTagsAndProtocol toks "" [] = some (P, tags)) (hP : P ≠ "")
    (hclient : cfg.DiscoveryClient { ServiceName := serviceName, Tags := tags } = .ok l) :
    retrieveInstancesForServiceQuery cfg serviceName request response toks
      = (response, l.filter (fun si => si.Endpoint.Type' = P), none) ∧
    (l.filter (fun si => si.Endpoint.Type' = P)).Sublist l ∧
    (∀ si ∈ l.filter (fun si => si.Endpoint.Type' = P), si.Endpoint.Type' = P) := by
  refine ⟨?_, List.filter_sublist l, ?_⟩
  · simp [retrieveInstancesForServiceQuery, hsplit, hclient, hP]
  · intro si hsi
    have h := (List.mem_filter.mp hsi).2
    simpa using h

/-- C6 witness: filtering the mixed catalog by protocol `http` retains
exactly the http instance. -/
theorem c6_protocol_filter_witness :
    splitTagsAndProtocol ["http"] "" [] = some ("http", []) ∧
    retrieveInstancesForServiceQuery cfgMixed "reviews" emptyMsg emptyMsg ["http"]
      = (emptyMsg, [instHttp], none) := by
  have h := (c6_protocol_filter cfgMixed "reviews" emptyMsg emptyMsg ["http"] [] "http"
    [instHttp, instTcp] (by decide) (by decide) rfl).1
  exact ⟨by decide, h.trans (by decide)⟩

/-! Section: Claim C7 -/

/-- C7: whenever record synthesis produces zero answer records, the response
code is set to name error and the handler returns without an error — never a
server failure. -/
theorem c7_zero_answers_name_error (cfg : Config) (rnd1 rnd2 : Nat → Nat) (q : Question)
    (request response : Msg) (instances : List ServiceInstance)
    (h : (buildRecords cfg q instances).1 = []) :
    createRecordsForInstances cfg rnd1 rnd2 q request response instances
      = (response.setRcode RcodeNameError, none) ∧
    RcodeNameError ≠ RcodeServerFailure := by
  constructor
  · simp [createRecordsForInstances, h]
  · decide

/-- C7 witness: an instance with an unknown endpoint type is skipped, the
answer set is empty, and the outcome is a name error without error value. -/
theorem c7_zero_answers_witness :
    (buildRecords cfgLocal qReviewsA [instBad]).1 = [] ∧
    createRecordsForInstances cfgLocal rnd0 rnd0 qReviewsA emptyMsg emptyMsg [instBad]
      = (emptyMsg.setRcode RcodeNameError, none) :=
  ⟨by decide,
    (c7_zero_answers_name_error cfgLocal rnd0 rnd0 qReviewsA emptyMsg emptyMsg [instBad]
      (by decide)).1⟩

/-! Section: Claim C2 -/

/-- Auxiliary: `shuffleRecords` of the empty list is empty. -/
theorem shuffleRecords_nil (rnd : Nat → Nat) : shuffleRecords rnd [] = [] := rfl

/-- C2: for an SRV query, each resolved instance whose endpoint parses
contributes exactly one SRV answer record (target `<id>.instance.<domain>.`,
the parsed port, priority and weight 0) and exactly one extra address record
(A for a 4-byte address, AAAA otherwise): up to the order introduced by
shuffling, the answer gains the multiset `spec_srvAnswer` and the extra
section the multiset `spec_srvExtra`, each of size `parsedCount`. -/
theorem c2_srv_record_synthesis (cfg : Config) (rnd1 rnd2 : Nat → Nat) (q : Question)
    (request response : Msg) (instances : List ServiceInstance) (hq : q.Qtype = TypeSRV) :
    (((createRecordsForInstances cfg rnd1 rnd2 q request response instances).1.Answer : Multiset RR)
        = (response.Answer : Multiset RR) + (spec_srvAnswer cfg q instances : Multiset RR)) ∧
    (((createRecordsForInstances cfg rnd1 rnd2 q request response instances).1.Extra : Multiset RR)
        = (response.Extra : Multiset RR) + (spec_srvExtra cfg q instances : Multiset RR)) ∧
    (spec_srvAnswer cfg q instances).length = parsedCount instances ∧
    (spec_srvExtra cfg q instances).length = parsedCount instances := by
  have hbr := buildRecords_srv cfg q hq instances
  have hlen := spec_srv_lengths cfg q instances
  refine ⟨?_, ?_, hlen.1, hlen.2⟩ <;>
  · by_cases hzero : (spec_srvAnswer cfg q instances).length = 0
    · have hnilA : spec_srvAnswer cfg q instances = [] := List.length_eq_zero.mp hzero
      have hnilE : spec_srvExtra cfg q instances = [] :=
        List.length_eq_zero.mp (by rw [hlen.2, ← hlen.1, hzero])
      simp [createRecordsForInstances, hbr, hnilA, hnilE, Msg.setRcode]
    · simp only [createRecordsForInstances, hbr, hzero, if_false, ← Multiset.coe_add]
      simp [shuffleRecords_coe]

/-- C2 witness: the SRV answer/extra multisets for one http instance under
domain `local`. -/
theorem c2_srv_record_synthesis_witness :
    qSrvLocal.Qtype = TypeSRV ∧
    (((createRecordsForInstances cfgLocal rnd0 rnd0 qSrvLocal emptyMsg emptyMsg [instHttp]).1.Answer
        : Multiset RR)
      = (emptyMsg.Answer : Multiset RR) + (spec_srvAnswer cfgLocal qSrvLocal [instHttp] : Multiset RR)) ∧
    (spec_srvAnswer cfgLocal qSrvLocal [instHttp]).length = parsedCount [instHttp] :=
  ⟨rfl,
    (c2_srv_record_synthesis cfgLocal rnd0 rnd0 qSrvLocal emptyMsg emptyMsg [instHttp] rfl).1,
    (c2_srv_record_synthesis cfgLocal rnd0 rnd0 qSrvLocal emptyMsg emptyMsg [instHttp] rfl).2.2.1⟩

/-! Section: Claim C3 -/

/-- C3: for an AAAA query, an answer record is emitted only for instances
whose parsed address has no valid 4-byte form, built by the A-record
constructor (record type A, class INET, TTL 0) and carrying the 16-byte
address (`spec_aaaaAnswer`); 4-byte-form instances contribute nothing, and
the extra section is untouched. -/
theorem c3_aaaa_records (cfg : Config) (rnd1 rnd2 : Nat → Nat) (q : Question)
    (request response : Msg) (instances : List ServiceInstance) (hq : q.Qtype = TypeAAAA) :
    (((createRecordsForInstances cfg rnd1 rnd2 q request response instances).1.Answer : Multiset RR)
        = (response.Answer : Multiset RR) + (spec_aaaaAnswer q instances : Multiset RR)) ∧
    (createRecordsForInstances cfg rnd1 rnd2 q request response instances).1.Extra
        = response.Extra := by
  have hbr := buildRecords_aaaa cfg q hq instances
  by_cases hzero : (spec_aaaaAnswer q instances).length = 0
  · have hnilA : spec_aaaaAnswer q instances = [] := List.length_eq_zero.mp hzero
    constructor
    · simp [createRecordsForInstances, hbr, hnilA, Msg.setRcode]
    · simp [createRecordsForInstances, hbr, hnilA, Msg.setRcode]
  · constructor
    · simp only [createRecordsForInstances, hbr, hzero, if_false, ← Multiset.coe_add]
      simp [shuffleRecords_coe]
    · simp [createRecordsForInstances, hbr, hzero, shuffleRecords_nil]

/-- C3 witness: with one IPv6 and one IPv4 instance, the AAAA answer carries
only the IPv6 instance's record and the extra section stays empty. -/
theorem c3_aaaa_records_witness :
    qReviewsAAAA.Qtype = TypeAAAA ∧
    (((createRecordsForInstances cfgLocal rnd0 rnd0 qReviewsAAAA emptyMsg emptyMsg
        [instV6, instTcp]).1.Answer : Multiset RR)
      = (emptyMsg.Answer : Multiset RR)
          + (spec_aaaaAnswer qReviewsAAAA [instV6, instTcp] : Multiset RR)) ∧
    (createRecordsForInstances cfgLocal rnd0 rnd0 qReviewsAAAA emptyMsg emptyMsg
        [instV6, instTcp]).1.Extra = emptyMsg.Extra :=
  ⟨rfl,
    (c3_aaaa_records cfgLocal rnd0 rnd0 qReviewsAAAA emptyMsg emptyMsg [instV6, instTcp] rfl).1,
    (c3_aaaa_records cfgLocal rnd0 rnd0 qReviewsAAAA emptyMsg emptyMsg [instV6, instTcp] rfl).2⟩

/-! Section: Claim C9 -/

/-- Auxiliary: the outcome of `createRecordsForInstances` does not depend on
the random sources except for list order — answer and extra multisets,
response code, and the error value are invariant. -/
theorem createRecords_rnd_invariant (cfg : Config) (r1 r2 r1' r2' : Nat → Nat) (q : Question)
    (request response : Msg) (instances : List ServiceInstance) :
    ((createRecordsForInstances cfg r1 r2 q request response instances).1.Answer : Multiset RR)
        = ((createRecordsForInstances cfg r1' r2' q request response instances).1.Answer : Multiset RR) ∧
    ((createRecordsForInstances cfg r1 r2 q request response instances).1.Extra : Multiset RR)
        = ((createRecordsForInstances cfg r1' r2' q request response instances).1.Extra : Multiset RR) ∧
    (createRecordsForInstances cfg r1 r2 q request response instances).1.Rcode
        = (createRecordsForInstances cfg r1' r2' q request response instances).1.Rcode ∧
    (createRecordsForInstances cfg r1 r2 q request response instances).2
        = (createRecordsForInstances cfg r1' r2' q request response instances).2 := by
  by_cases hzero : (buildRecords cfg q instances).1.length = 0
  · simp [createRecordsForInstances, hzero]
  · refine ⟨?_, ?_, ?_, ?_⟩ <;>
      simp [createRecordsForInstances, hzero, ← Multiset.coe_add, shuffleRecords_coe]

/-- Auxiliary: the outcome of `handleQuestion` is random-source-invariant up
to record order. -/
theorem handleQuestion_rnd_invariant (cfg : Config) (r1 r2 r1' r2' : Nat → Nat) (q : Question)
    (request response : Msg) :
    ((handleQuestion cfg r1 r2 q request response).1.Answer : Multiset RR)
        = ((handleQuestion cfg r1' r2' q request response).1.Answer : Multiset RR) ∧
    ((handleQuestion cfg r1 r2 q request response).1.Extra : Multiset RR)
        = ((handleQuestion cfg r1' r2' q request response).1.Extra : Multiset RR) ∧
    (handleQuestion cfg r1 r2 q request response).1.Rcode
        = (handleQuestion cfg r1' r2' q request response).1.Rcode ∧
    (handleQuestion cfg r1 r2 q request response).2
        = (handleQuestion cfg r1' r2' q request response).2 := by
  by_cases hcl : q.Qclass ≠ ClassINET
  · simp [handleQuestion, hcl]
  · by_cases hty : (¬(q.Qtype = TypeA) ∧ ¬(q.Qtype = TypeAAAA)) ∧ ¬(q.Qtype = TypeSRV)
    · simp [handleQuestion, hcl, hty.1.1, hty.1.2, hty.2]
    · rcases hre : retrieveServices cfg q request response with ⟨m, insts, err⟩
      cases err with
      | some e => simp [handleQuestion, hcl, hty, hre]
      | none =>
        have h := createRecords_rnd_invariant cfg r1 r2 r1' r2' q request m insts
        simpa [handleQuestion, hcl, hty, hre] using h

/-- C9: the shuffle only permutes its input, so for a fixed catalog and a
fixed question the pipeline's outcome is deterministic as a multiset: two
runs with different random sources produce the same answer multiset, the
same extra multiset, the same response code and the same error value. -/
theorem c9_shuffle_idempotence :
    (∀ (rnd : Nat → Nat) (l : List RR), List.Perm (shuffleRecords rnd l) l) ∧
    (∀ (cfg : Config) (r1 r2 r1' r2' : Nat → Nat) (q : Question) (request response : Msg),
      ((handleQuestion cfg r1 r2 q request response).1.Answer : Multiset RR)
          = ((handleQuestion cfg r1' r2' q request response).1.Answer : Multiset RR) ∧
      ((handleQuestion cfg r1 r2 q request response).1.Extra : Multiset RR)
          = ((handleQuestion cfg r1' r2' q request response).1.Extra : Multiset RR) ∧
      (handleQuestion cfg r1 r2 q request response).1.Rcode
          = (handleQuestion cfg r1' r2' q request response).1.Rcode ∧
      (handleQuestion cfg r1 r2 q request response).2
          = (handleQuestion cfg r1' r2' q request response).2) :=
  ⟨shuffleRecords_perm, handleQuestion_rnd_invariant⟩

/-! Section: Claim C8 -/

/-- Auxiliary: every list starts with itself as a prefix. -/
theorem hasPrefixL_append (l r : List Char) : hasPrefixL (l ++ r) l = true := by
  induction l with
  | nil => cases r <;> rfl
  | cons c cs ih => simp [hasPrefixL, ih]

/-- Auxiliary: prepending `http://` yields the `http://` prefix. -/
theorem hasPrefixS_http_append (v : String) : hasPrefixS ("http://" ++ v) "http://" = true := by
  obtain ⟨vd⟩ := v
  exact hasPrefixL_append "http://".data vd

/-- Auxiliary: a string starting with `http://` does not start with `https://`
(the fifth characters differ). -/
theorem hasPrefixL_http_not_https (cs : List Char)
    (h : hasPrefixL cs ['h', 't', 't', 'p', ':', '/', '/'] = true) :
    hasPrefixL cs ['h', 't', 't', 'p', 's', ':', '/', '/'] = false := by
  rcases cs with _ | ⟨c0, _ | ⟨c1, _ | ⟨c2, _ | ⟨c3, _ | ⟨c4, rest⟩⟩⟩⟩⟩ <;>
    simp_all [hasPrefixL]

/-- Auxiliary: a string starting with `https://` does not start with `http://`. -/
theorem hasPrefixL_https_not_http (cs : List Char)
    (h : hasPrefixL cs ['h', 't', 't', 'p', 's', ':', '/', '/'] = true) :
    hasPrefixL cs ['h', 't', 't', 'p', ':', '/', '/'] = false := by
  rcases cs with _ | ⟨c0, _ | ⟨c1, _ | ⟨c2, _ | ⟨c3, _ | ⟨c4, rest⟩⟩⟩⟩⟩ <;>
    simp_all [hasPrefixL]

/-- Auxiliary: `hasPrefixS` version of the scheme disambiguation. -/
theorem hasPrefixS_not_https_of_http (v : String) (h : hasPrefixS v "http://" = true) :
    hasPrefixS v "https://" = false :=
  hasPrefixL_http_not_https v.data h

/-- Auxiliary: `hasPrefixS` version of the scheme disambiguation. -/
theorem hasPrefixS_not_http_of_https (v : String) (h : hasPrefixS v "https://" = true) :
    hasPrefixS v "http://" = false :=
  hasPrefixL_https_not_http v.data h

/-- Auxiliary: prepending `http://` never yields the `https://` prefix. -/
theorem hasPrefixS_http_append_not_https (v : String) :
    hasPrefixS ("http://" ++ v) "https://" = false :=
  hasPrefixS_not_https_of_http _ (hasPrefixS_http_append v)

/-- Auxiliary: `Atoi` of the default port string. -/
theorem atoi_zero : Atoi "0" = some 0 := rfl

/-- C8: endpoint address/port extraction.  For tcp/udp endpoints the value is
parsed as `host[:port]` — a value without a parseable port gets port 0, a
host that is not a literal IP address fails extraction, and an explicit port
is kept (modulo the `uint16` conversion).  For http/https endpoints the
scheme defaults to `http://` when neither prefix is present, and a zero
(i.e. missing) port defaults to 80 for http and 443 for https. -/
theorem c8_endpoint_extraction :
    (∀ e : ServiceEndpoint, e.Type' = "tcp" ∨ e.Type' = "udp" →
      splitHostPort e = splitHostPortTCPUDP e.Value) ∧
    (∀ e : ServiceEndpoint, e.Type' = "http" ∨ e.Type' = "https" →
      splitHostPort e = splitHostPortHTTP e.Value) ∧
    (∀ v : String, SplitHostPort v = none → ParseIP v ≠ [] →
      splitHostPortTCPUDP v = some (ParseIP v, 0)) ∧
    (∀ v : String, SplitHostPort v = none → ParseIP v = [] →
      splitHostPortTCPUDP v = none) ∧
    (∀ (v host port : String), SplitHostPort v = some (host, port) → ParseIP host = [] →
      splitHostPortTCPUDP v = none) ∧
    (∀ (v host port : String) (n : Int),
      SplitHostPort v = some (host, port) → ParseIP host ≠ [] → Atoi port = some n →
      splitHostPortTCPUDP v = some (ParseIP host, (n % (2 ^ 16 : Int)).toNat)) ∧
    (∀ v : String, hasPrefixS v "http://" = false → hasPrefixS v "https://" = false →
      splitHostPortHTTP v = splitHostPortHTTP ("http://" ++ v)) ∧
    (∀ (v host : String) (ip : IP), hasPrefixS v "http://" = true →
      urlParseHost v = some host → splitHostPortTCPUDP host = some (ip, 0) →
      splitHostPortHTTP v = some (ip, 80)) ∧
    (∀ (v host : String) (ip : IP), hasPrefixS v "https://" = true →
      urlParseHost v = some host → splitHostPortTCPUDP host = some (ip, 0) →
      splitHostPortHTTP v = some (ip, 443)) := by
  refine ⟨?_, ?_, ?_, ?_, ?_, ?_, ?_, ?_, ?_⟩
  · intro e he
    rcases he with he | he <;> simp [splitHostPort, he]
  · intro e he
    rcases he with he | he <;> simp [splitHostPort, he]
  · intro v hsp hip
    simp [splitHostPortTCPUDP, hsp, hip, atoi_zero]
  · intro v hsp hip
    simp [splitHostPortTCPUDP, hsp, hip]
  · intro v host port hsp hip
    simp [splitHostPortTCPUDP, hsp, hip]
  · intro v host port n hsp hip ha
    simp [splitHostPortTCPUDP, hsp, hip, ha]
  · intro v hH hS
    simp [splitHostPortHTTP, hH, hS, hasPrefixS_http_append,
      hasPrefixS_http_append_not_https]
  · intro v host ip hH hu hts
    have hS := hasPrefixS_not_https_of_http v hH
    simp [splitHostPortHTTP, hH, hS, hu, hts]
  · intro v host ip hS hu hts
    have hH := hasPrefixS_not_http_of_https v hS
    simp [splitHostPortHTTP, hH, hS, hu, hts]

/-- C8 witness: the conjuncts evaluated at concrete endpoints — a tcp
endpoint with and without a port, and an http value without a scheme whose
missing port becomes 80. -/
theorem c8_endpoint_extraction_witness :
    splitHostPort instTcp.Endpoint = splitHostPortTCPUDP "10.0.0.5:9090" ∧
    SplitHostPort "10.0.0.5" = none ∧
    splitHostPortTCPUDP "10.0.0.5" = some (ParseIP "10.0.0.5", 0) ∧
    splitHostPortHTTP "192.168.1.10" = splitHostPortHTTP ("http://" ++ "192.168.1.10") ∧
    splitHostPortHTTP "http://192.168.1.10" = some (ParseIP "192.168.1.10", 80) := by
  obtain ⟨hdis, -, hnoport, -, -, -, hscheme, hhttp, -⟩ := c8_endpoint_extraction
  refine ⟨hdis instTcp.Endpoint (Or.inl (by decide)), by decide, ?_, ?_, ?_⟩
  · exact hnoport "10.0.0.5" (by decide) (by decide)
  · exact hscheme "192.168.1.10" (by decide) (by decide)
  · exact hhttp "http://192.168.1.10" "192.168.1.10" (ParseIP "192.168.1.10")
      (by decide) (by decide) (by decide)

/-! Section: Claim C10 -/

/-- C10: in a two-question request, a first question that answers nothing
sets the name-error code but returns no error, so the loop continues; a
second question that succeeds overwrites the code with success — the final
response code reflects the last question that set a code, not the first
name-error question. -/
theorem c10_multi_question (cfg : Config) (rnds : Nat → Nat → Nat) (request : Msg)
    (q1 q2 : Question) (r1 r2 : Msg)
    (hq : request.Question = [q1, q2])
    (h1 : handleQuestion cfg (rnds 0) (rnds 1) q1 request (initialResponse request) = (r1, none))
    (h1c : r1.Rcode = RcodeNameError)
    (h2 : handleQuestion cfg (rnds 2) (rnds 3) q2 request r1 = (r2, none))
    (h2c : r2.Rcode = RcodeSuccess) :
    handleRequest cfg rnds request = r2 ∧
    (handleRequest cfg rnds request).Rcode = RcodeSuccess ∧
    RcodeSuccess ≠ RcodeNameError := by
  have hfinal : handleRequest cfg rnds request = r2 := by
    unfold handleRequest
    rw [hq]
    show questionsLoop cfg rnds request [q1, q2] 0 (initialResponse request) = r2
    unfold questionsLoop
    norm_num
    rw [h1]
    show questionsLoop cfg rnds request [q2] 1 r1 = r2
    unfold questionsLoop
    norm_num
    rw [h2]
    rfl
  exact ⟨hfinal, by rw [hfinal, h2c], by decide⟩

/-- C10 witness: the concrete two-question request ends with response code
success even though its first question produced a name error. -/
theorem c10_multi_question_witness :
    reqC10.Question = [qNoSuch, qReviewsA] ∧
    handleRequest cfgLocal rnds0 reqC10 = c10Final ∧
    c10Final.Rcode = RcodeSuccess :=
  ⟨rfl,
    (c10_multi_question cfgLocal rnds0 reqC10 qNoSuch qReviewsA c10AfterQ1 c10Final
      rfl (by decide) rfl (by decide) rfl).1,
    rfl⟩

end A8DNS
